import Mathlib

/-!
Verification of the Pathly place-search pipeline (src/src/fsgm.py,
src/src/ranking.py, src/src/userLocation.py).

The Python code is shallowly embedded: JSON values become the inductive
type `JValue` (numbers as exact rationals), Python dicts become
association lists (`PDict`), network and LLM collaborators become
explicit oracles passed as arguments, and code that can raise returns
`Except PyErr`.  Real-valued trigonometric code (`_haversine_km`) is
modelled over the exact reals.
-/

set_option autoImplicit false

namespace Pathly

/-- Exceptions a modelled Python fragment can raise.  `external` stands for
an exception coming out of a collaborator call (requests / Groq client). -/
inductive PyErr where
  | external
  | attrErr
  | typeErr
  | valueErr
  | keyErr
  | httpErr
  deriving DecidableEq, Repr

/-- JSON values as handled by `json.loads` / `json.dumps`; numbers are kept
as exact rationals. -/
inductive JValue where
  | jnull
  | jbool (b : Bool)
  | jnum (q : ℚ)
  | jstr (s : String)
  | jarr (elems : List JValue)
  | jobj (fields : List (String × JValue))
  deriving Inhabited

open JValue

mutual

/-- Structural equality of JSON values (Python `==` / `!=` on values
produced by `json.loads`). -/
def JValue.beq : JValue → JValue → Bool
  | jnull, jnull => true
  | jbool a, jbool b => a == b
  | jnum a, jnum b => a == b
  | jstr a, jstr b => a == b
  | jarr as, jarr bs => JValue.beqList as bs
  | jobj as, jobj bs => JValue.beqObj as bs
  | _, _ => false

def JValue.beqList : List JValue → List JValue → Bool
  | [], [] => true
  | x :: xs, y :: ys => JValue.beq x y && JValue.beqList xs ys
  | _, _ => false

def JValue.beqObj : List (String × JValue) → List (String × JValue) → Bool
  | [], [] => true
  | (k1, v1) :: xs, (k2, v2) :: ys =>
      k1 == k2 && JValue.beq v1 v2 && JValue.beqObj xs ys
  | _, _ => false

end

/-- A Python dict whose keys are strings, as an insertion-ordered
association list (keys unique in every value the code builds). -/
abbrev PDict := List (String × JValue)

/-- `d.get(k)` (returns `None` for a missing key, modelled as `none`).
Keys are unique in every dict the code builds, so first-match lookup is
Python lookup. -/
def dGet : PDict → String → Option JValue
  | [], _ => none
  | p :: rest, k => if p.1 = k then some p.2 else dGet rest k

/-- `d.get(k)` where the Python `None` result is the JSON null. -/
def dGetN (d : PDict) (k : String) : JValue :=
  (dGet d k).getD jnull

/-- `d[k] = v`: update in place when the key exists, append otherwise. -/
def dSet : PDict → String → JValue → PDict
  | [], k, v => [(k, v)]
  | p :: rest, k, v => if p.1 = k then (k, v) :: rest else p :: dSet rest k v

/-- `d.pop(k, None)`'s effect on the dict: remove the key if present. -/
def dRemove (d : PDict) (k : String) : PDict :=
  d.filter (fun p => p.1 ≠ k)

/-- `d.setdefault(k, v)`: insert only when the key is absent. -/
def dSetdefault (d : PDict) (k : String) (v : JValue) : PDict :=
  if (dGet d k).isSome then d else d ++ [(k, v)]

/-- Python truthiness of a JSON value. -/
def pyTruthy : JValue → Bool
  | jnull => false
  | jbool b => b
  | jnum q => q ≠ 0
  | jstr s => s ≠ ""
  | jarr l => ¬ l.isEmpty
  | jobj d => ¬ d.isEmpty

/-- Truthiness of a `d.get(k)` result (`None` is falsy). -/
def optTruthy (v : Option JValue) : Bool :=
  (v.map pyTruthy).getD false

/-- Attribute access such as `.get` on a value that must be a dict;
anything else raises `AttributeError`. -/
def asObj : JValue → Except PyErr PDict
  | jobj d => .ok d
  | _ => .error .attrErr

/-- `isinstance(v, str)`. -/
def isStr : JValue → Bool
  | jstr _ => true
  | _ => false

/-- `isinstance(v, (int, float))`; Python `bool` is a subclass of `int`. -/
def isNum : JValue → Bool
  | jnum _ => true
  | jbool _ => true
  | _ => false

/-- Numeric value of a number-like JSON value (`True == 1`, `False == 0`). -/
def numVal : JValue → ℚ
  | jnum q => q
  | jbool b => if b then 1 else 0
  | _ => 0

/-- `str(v)` as used on identifier values; best effort for non-strings
(claims only exercise the string cases). -/
def pyStr : JValue → String
  | jnull => "None"
  | jbool b => if b then "True" else "False"
  | jnum q => toString q
  | jstr s => s
  | jarr _ => "[...]"
  | jobj _ => "{...}"

/-- `v > n` for a number literal `n`: numbers and bools compare, anything
else raises `TypeError` (Python 3 semantics). -/
def pyGtNum (v : JValue) (n : ℚ) : Except PyErr Bool :=
  match v with
  | jnum q => .ok (decide (n < q))
  | jbool b => .ok (decide (n < (if b then (1 : ℚ) else 0)))
  | _ => .error .typeErr

/-- User context as built by `create_context_from_location`: the dict always
carries these keys; `latitude`/`longitude` hold whatever the frontend sent,
`ll` is always a string, `text_location` is an optional string. -/
structure Ctx where
  latitude : JValue
  longitude : JValue
  ll : String
  timezone : String
  current_time : String
  text_location : Option JValue
  deriving Inhabited

-- ---------- Python string methods, modelled on `List Char` ----------

/-- `s.split(sep)` on character lists: no collapsing of empty segments,
`"" ↦ [""]`. -/
def splitL (sep : Char) : List Char → List (List Char)
  | [] => [[]]
  | c :: rest =>
      if c = sep then [] :: splitL sep rest
      else
        match splitL sep rest with
        | g :: gs => (c :: g) :: gs
        | [] => [[c]]

/-- `s.strip()` on character lists: drop whitespace from both ends. -/
def stripL (l : List Char) : List Char :=
  (((l.dropWhile Char.isWhitespace).reverse).dropWhile Char.isWhitespace).reverse

/-- `s.replace(old, new)` on character lists, for a non-empty pattern
`o :: os`: left-to-right, non-overlapping, replacements not rescanned.
The second argument counts characters still to be skipped after a match
(the tail of the matched occurrence); the scan starts with skip 0. -/
def replaceGo (o : Char) (os : List Char) (new : List Char) :
    List Char → ℕ → List Char
  | [], _ => []
  | _ :: rest, n + 1 => replaceGo o os new rest n
  | c :: rest, 0 =>
      if c :: List.take os.length rest = o :: os then
        new ++ replaceGo o os new rest os.length
      else
        c :: replaceGo o os new rest 0

/-- `sep.join(xs)` on character lists. -/
def joinL (sep : List Char) : List (List Char) → List Char
  | [] => []
  | [x] => x
  | x :: y :: rest => x ++ sep ++ joinL sep (y :: rest)

/-- `s.split(",")`. -/
def pySplitComma (s : String) : List String :=
  (splitL ',' s.data).map String.mk

/-- `s.strip()`. -/
def pyStrip (s : String) : String :=
  String.mk (stripL s.data)

/-- `p.replace("Municipal Corporation", "")`. -/
def replaceMC (l : List Char) : List Char :=
  replaceGo 'M' "unicipal Corporation".data [] l 0

-- ---------- `_simplify_location` (fsgm.py lines 418-437) ----------

/-- Core of `_simplify_location` on character lists: keep only segments
that survive stripping, drop the phrase "Municipal Corporation" from each,
keep at most the first two, join with ", "; fall back to the input when a
stage leaves nothing. -/
def simplifyCoreL (l : List Char) : List Char :=
  let parts := ((splitL ',' l).map stripL).filter (fun p => ¬ p.isEmpty)
  if parts.isEmpty then l
  else
    let cleaned :=
      (parts.map (fun p => stripL (replaceMC p))).filter (fun c => ¬ c.isEmpty)
    let simplified := joinL [',', ' '] (cleaned.take 2)
    if simplified.isEmpty then l else simplified

/-- String core of `_simplify_location`. -/
def simplifyLocationStr (loc : String) : String :=
  String.mk (simplifyCoreL loc.data)

/-- `_simplify_location`: non-string or falsy inputs are returned
unchanged. -/
def _simplify_location (loc : JValue) : JValue :=
  if !(pyTruthy loc) || !(isStr loc) then loc
  else
    match loc with
    | jstr s => jstr (simplifyLocationStr s)
    | v => v

-- ---------- Distance helpers (fsgm.py lines 185-197) ----------
-- The floating-point trigonometry is modelled over the exact reals.

open Real in
/-- `math.radians`. -/
noncomputable def radians (x : ℝ) : ℝ := x * π / 180

open Real in
/-- `math.atan2 y x` (IEEE definition restricted to the real line). -/
noncomputable def atan2 (y x : ℝ) : ℝ :=
  if 0 < x then arctan (y / x)
  else if x < 0 ∧ 0 ≤ y then arctan (y / x) + π
  else if x < 0 ∧ y < 0 then arctan (y / x) - π
  else if x = 0 ∧ 0 < y then π / 2
  else if x = 0 ∧ y < 0 then -(π / 2)
  else 0

/-- `math.sqrt`, which raises `ValueError` on negative input. -/
noncomputable def pySqrt (x : ℝ) : Except PyErr ℝ :=
  if x < 0 then .error .valueErr else .ok (Real.sqrt x)

/-- Python banker's rounding of a real to the nearest integer. -/
noncomputable def bankRound (x : ℝ) : ℤ :=
  let f := ⌊x⌋
  let r := x - f
  if r < 1 / 2 then f
  else if 1 / 2 < r then f + 1
  else if Even f then f else f + 1

/-- `round(x, 3)`. -/
noncomputable def pyRound3 (x : ℝ) : ℝ := (bankRound (x * 1000) : ℝ) / 1000

open Real in
/-- The intermediate `a` of `_haversine_km`. -/
noncomputable def havA (lat1 lon1 lat2 lon2 : ℝ) : ℝ :=
  sin (radians (lat2 - lat1) / 2) ^ 2 +
    cos (radians lat1) * cos (radians lat2) * sin (radians (lon2 - lon1) / 2) ^ 2

/-- `_haversine_km`: great-circle distance on a sphere of radius 6371 km,
rounded to 3 decimals.  `math.sqrt` domain errors are modelled as raising. -/
noncomputable def _haversine_km (lat1 lon1 lat2 lon2 : ℝ) : Except PyErr ℝ :=
  let a := havA lat1 lon1 lat2 lon2
  match pySqrt a, pySqrt (1 - a) with
  | .ok sa, .ok sb => .ok (pyRound3 (6371.0 * (2 * atan2 sa sb)))
  | .error e, _ => .error e
  | .ok _, .error e => .error e

/-- `_add_distance(ctx, lat, lon)`, with `ctx.get("latitude")` and
`ctx.get("longitude")` passed as the first two arguments. -/
noncomputable def _add_distance (clat clon lat lon : JValue) :
    Except PyErr (Option ℝ) :=
  if isNum clat && isNum clon && isNum lat && isNum lon then
    match _haversine_km ((numVal clat : ℚ) : ℝ) ((numVal clon : ℚ) : ℝ)
        ((numVal lat : ℚ) : ℝ) ((numVal lon : ℚ) : ℝ) with
    | .ok d => .ok (some d)
    | .error e => .error e
  else
    .ok none

-- ---------- userLocation.py ----------

/-- `float(v)` as used by `validate_coordinates`; `None`/lists/dicts raise
(`TypeError`), so yield `none`.  Numeric strings can convert in Python but
are not modelled (no claim depends on them). -/
def pyFloat? : JValue → Option ℚ
  | jnum q => some q
  | jbool b => some (if b then 1 else 0)
  | _ => none

/-- `validate_coordinates` (userLocation.py lines 23-39). -/
def validate_coordinates (lat lon : JValue) : Bool :=
  match pyFloat? lat, pyFloat? lon with
  | some a, some b => decide ((-90 ≤ a ∧ a ≤ 90) ∧ (-180 ≤ b ∧ b ≤ 180))
  | _, _ => false

/-- State of the location-cache file. -/
inductive CacheFile where
  | absent
  | corrupt
  | stored (d : PDict)
  deriving Inhabited

/-- `save_location_cache` (userLocation.py lines 42-70): returns the Python
result together with the new file state. -/
def save_location_cache (st : CacheFile) (location_data : PDict) :
    Bool × CacheFile :=
  if !(optTruthy (dGet location_data "latitude")) ||
      !(optTruthy (dGet location_data "longitude")) then
    (false, st)
  else if !(validate_coordinates (dGetN location_data "latitude")
      (dGetN location_data "longitude")) then
    (false, st)
  else
    (true, .stored location_data)

/-- `get_location_cache` (userLocation.py lines 73-92). -/
def get_location_cache (st : CacheFile) : Option PDict :=
  match st with
  | .absent => none
  | .corrupt => none
  | .stored d =>
      if validate_coordinates (dGetN d "latitude") (dGetN d "longitude") then
        some d
      else none

-- ---------- Query planners (fsgm.py lines 243-277 and 379-414) ----------

/-- Outcome of one Groq chat-completion call, seen through `json.loads`:
`.error` when the call itself raises, `.ok none` when the returned text is
not parseable JSON (`json.JSONDecodeError`), `.ok (some v)` when it parses
to the JSON value `v`. -/
abbrev LlmResult := Except Unit (Option JValue)

/-- The deterministic fallback dict of `generate_fs_params`
(`user_prompt or "coffee"`). -/
def fsFallbackParams (user_prompt : String) (ctx : Ctx) : PDict :=
  [("ll", jstr ctx.ll), ("near", jnull), ("radius", jnum 5000),
   ("query", jstr (if user_prompt = "" then "coffee" else user_prompt)),
   ("categories", jnull), ("chains", jnull), ("open_now", jnull),
   ("open_at", jnull), ("min_price", jnull), ("max_price", jnull),
   ("sort", jstr "RELEVANCE"), ("limit", jnum 5), ("fields", jnull)]

/-- The `params` value of `generate_fs_params` right after the
parse-or-fallback step: a raised call propagates, a JSON decode error
selects the fallback dict. -/
def fsParsedParams (llm : LlmResult) (user_prompt : String) (ctx : Ctx) :
    Except PyErr JValue :=
  match llm with
  | .error _ => .error .external
  | .ok none => .ok (jobj (fsFallbackParams user_prompt ctx))
  | .ok (some v) => .ok v

/-- The `limit` clamp of `generate_fs_params`:
`if not params.get("limit") or params.get("limit", 0) > 5: params["limit"] = 5`.
The comparison raises `TypeError` on truthy non-numeric values (only
reached when the first disjunct is false, per short-circuiting). -/
def fsStepLimit (d : PDict) : Except PyErr PDict :=
  if !(optTruthy (dGet d "limit")) then .ok (dSet d "limit" (jnum 5))
  else
    match pyGtNum ((dGet d "limit").getD (jnum 0)) 5 with
    | .error e => .error e
    | .ok b => .ok (if b then dSet d "limit" (jnum 5) else d)

/-- The coordinate injection of `generate_fs_params`:
`if not params.get("ll") and not params.get("near"): params["ll"] = ctx["ll"]`. -/
def fsStepLl (ctx : Ctx) (d : PDict) : PDict :=
  if !(optTruthy (dGet d "ll")) && !(optTruthy (dGet d "near")) then
    dSet d "ll" (jstr ctx.ll)
  else d

/-- Post-processing of `generate_fs_params`: clamp `limit` to 5 and inject
the context coordinates when neither `ll` nor `near` is truthy; `.get`
raises `AttributeError` on a non-dict. -/
def fsPost (ctx : Ctx) (v : JValue) : Except PyErr PDict :=
  match asObj v with
  | .error e => .error e
  | .ok d =>
      match fsStepLimit d with
      | .error e => .error e
      | .ok d2 => .ok (fsStepLl ctx d2)

/-- `generate_fs_params` (fsgm.py lines 243-277). -/
def generate_fs_params (llm : LlmResult) (user_prompt : String) (ctx : Ctx) :
    Except PyErr PDict :=
  match fsParsedParams llm user_prompt ctx with
  | .error e => .error e
  | .ok v => fsPost ctx v

/-- Truthiness of `ctx.get("text_location")`. -/
def ctxTextTruthy (ctx : Ctx) : Bool :=
  optTruthy ctx.text_location

/-- The deterministic fallback dict of `generate_serp_params`
(`ctx.get("text_location") or None`). -/
def serpFallbackParams (user_prompt : String) (ctx : Ctx) : PDict :=
  [("engine", jstr "google_local"),
   ("q", jstr (if user_prompt = "" then "coffee" else user_prompt)),
   ("location", if ctxTextTruthy ctx then ctx.text_location.getD jnull else jnull),
   ("hl", jstr "en"), ("gl", jstr "in"), ("num", jnum 10)]

/-- `int(s)` on a string, as in the `num` coercion. -/
def pyIntParse? (s : String) : Option ℤ :=
  (pyStrip s).toInt?

/-- The location injection of `generate_serp_params`:
`if not params.get("location") and ctx.get("text_location"): ...`. -/
def serpStepLocation (ctx : Ctx) (d : PDict) : PDict :=
  if !(optTruthy (dGet d "location")) && ctxTextTruthy ctx then
    dSet d "location" (ctx.text_location.getD jnull)
  else d

/-- The `num` string coercion of `generate_serp_params`. -/
def serpStepNum (d : PDict) : PDict :=
  match dGet d "num" with
  | some (jstr s) =>
      match pyIntParse? s with
      | some n => dSet d "num" (jnum n)
      | none => dSet d "num" (jnum 10)
  | _ => d

/-- `params["hl"] = params.get("hl") or "en"`. -/
def serpSetHl (d : PDict) : PDict :=
  dSet d "hl" (if optTruthy (dGet d "hl") then dGetN d "hl" else jstr "en")

/-- `params["gl"] = params.get("gl") or "in"`. -/
def serpSetGl (d : PDict) : PDict :=
  dSet d "gl" (if optTruthy (dGet d "gl") then dGetN d "gl" else jstr "in")

/-- `params["num"] = params.get("num") or 10`. -/
def serpSetNum10 (d : PDict) : PDict :=
  dSet d "num" (if optTruthy (dGet d "num") then dGetN d "num" else jnum 10)

/-- The `hl`/`gl`/`num` defaulting assignments of `generate_serp_params`,
each reading the dict as updated by the previous one. -/
def serpStepDefaults (d : PDict) : PDict :=
  serpSetNum10 (serpSetGl (serpSetHl d))

/-- Post-processing of `generate_serp_params` (engine default, location
injection, `num` coercion, `hl`/`gl`/`num` defaults, API key). -/
def serpPost (apiKey : JValue) (ctx : Ctx) (v : JValue) : Except PyErr PDict :=
  match asObj v with
  | .error e => .error e
  | .ok d =>
      .ok (dSet (serpStepDefaults (serpStepNum (serpStepLocation ctx
        (dSetdefault d "engine" (jstr "google_local"))))) "api_key" apiKey)

/-- `generate_serp_params` (fsgm.py lines 379-414); `apiKey` models the
`SERPAPI_KEY` environment value. -/
def generate_serp_params (apiKey : JValue) (llm : LlmResult)
    (user_prompt : String) (ctx : Ctx) : Except PyErr PDict :=
  match llm with
  | .error _ => .error .external
  | .ok none => serpPost apiKey ctx (jobj (serpFallbackParams user_prompt ctx))
  | .ok (some v) => serpPost apiKey ctx v

-- ---------- HTTP collaborator model ----------

/-- One `requests.get` outcome: either the call raised (timeout, network),
or an HTTP response arrived with a status code and, when the body was
parseable JSON, its value (`none` body makes `r.json()` raise). -/
inductive NetResp where
  | exn
  | resp (status : ℕ) (body : Option JValue)
  deriving Inhabited

-- ---------- Foursquare fetch (fsgm.py lines 279-345) ----------

/-- Python iteration over a JSON value (`for x in v`): lists yield their
elements, strings their characters, dicts their keys; anything else raises
`TypeError`. -/
def pyIterList : JValue → Except PyErr (List JValue)
  | jarr l => .ok l
  | jstr s => .ok (s.data.map (fun c => jstr (String.mk [c])))
  | jobj d => .ok (d.map (fun p => jstr p.1))
  | _ => .error .typeErr

/-- `v[0]`: indexing used on `chains[0]`. -/
def pyIndex0 : JValue → Except PyErr JValue
  | jarr (x :: _) => .ok x
  | jarr [] => .error .keyErr
  | jstr s =>
      match s.data with
      | c :: _ => .ok (jstr (String.mk [c]))
      | [] => .error .keyErr
  | jobj _ => .error .keyErr
  | _ => .error .typeErr

/-- The id-collecting loop of `search_foursquare`: append truthy
`fsq_place_id` fields, stopping once 5 ids are collected. -/
def fsCollectIds : List JValue → List JValue → Except PyErr (List JValue)
  | [], ids => .ok ids
  | p :: rest, ids => do
      let pd ← asObj p
      let fid := dGet pd "fsq_place_id"
      let ids := if optTruthy fid then ids ++ [fid.getD jnull] else ids
      if 5 ≤ ids.length then .ok ids else fsCollectIds rest ids

/-- `search_foursquare` (fsgm.py lines 279-292): `net` is the HTTP
collaborator, applied to the cleaned query dict. -/
def search_foursquare (net : PDict → NetResp) (params : PDict) :
    Except PyErr (List JValue) := do
  let clean := params.filter
    (fun p => !(JValue.beq p.2 jnull) && !(JValue.beq p.2 (jstr "null")))
  let clean := dSet clean "fields" (jstr "fsq_place_id")
  match net clean with
  | .exn => .error .external
  | .resp s body =>
      if 400 ≤ s then .error .httpErr
      else
        match body with
        | none => .error .valueErr
        | some data => do
            let d ← asObj data
            let results ← pyIterList ((dGet d "results").getD (jarr []))
            fsCollectIds results []

/-- `fetch_place_details` (fsgm.py lines 294-298): one detail call per id,
`raise_for_status` propagates, as does a JSON decode failure. -/
def fetch_place_details (net : ℕ → JValue → NetResp) (k : ℕ) (fsq_id : JValue) :
    Except PyErr JValue :=
  match net k fsq_id with
  | .exn => .error .external
  | .resp s body =>
      if 400 ≤ s then .error .httpErr
      else
        match body with
        | none => .error .valueErr
        | some j => .ok j

/-- The normalized Foursquare place record built by `summarize_fs`; the
`distance_km` key is added afterwards by `run_fs`. -/
structure FsRecord where
  fsq_place_id : JValue
  name : JValue
  address : JValue
  latitude : JValue
  longitude : JValue
  categories : JValue
  chain : JValue
  tel : JValue
  website : JValue
  distance_km : Option ℝ

/-- `", ".join(xs)`: every element must be a string. -/
def pyJoinComma : List JValue → Except PyErr String
  | [] => .ok ""
  | [jstr s] => .ok s
  | jstr s :: rest => do
      let r ← pyJoinComma rest
      .ok (s ++ ", " ++ r)
  | _ :: _ => .error .typeErr

/-- `summarize_fs` (fsgm.py lines 300-320). -/
def summarize_fs (detail : JValue) : Except PyErr FsRecord := do
  let d ← asObj detail
  let locRaw := dGetN d "location"
  let lobj ← asObj (if pyTruthy locRaw then locRaw else jobj [])
  let fa := dGet lobj "formatted_address"
  let formatted ←
    if optTruthy fa then pure (fa.getD jnull)
    else do
      let parts := [dGet lobj "address", dGet lobj "locality", dGet lobj "region",
                    dGet lobj "postcode", dGet lobj "country"]
      let kept := (parts.filter optTruthy).map (fun o => o.getD jnull)
      let joined ← pyJoinComma kept
      pure (if joined = "" then jnull else jstr joined)
  let catsRaw := dGetN d "categories"
  let catElems ← pyIterList (if pyTruthy catsRaw then catsRaw else jarr [])
  let catNames := catElems.filterMap (fun c =>
    match c with
    | jobj cd => if optTruthy (dGet cd "name") then some (dGetN cd "name") else none
    | _ => none)
  let chainsRaw := dGetN d "chains"
  let chainsVal := if pyTruthy chainsRaw then chainsRaw else jarr []
  let chain ←
    if pyTruthy chainsVal then do
      let c0 ← pyIndex0 chainsVal
      match c0 with
      | jobj cd => pure (dGetN cd "name")
      | _ => pure jnull
    else pure jnull
  return { fsq_place_id := dGetN d "fsq_place_id"
           name := dGetN d "name"
           address := formatted
           latitude := dGetN d "latitude"
           longitude := dGetN d "longitude"
           categories := if catNames.isEmpty then jnull else jarr catNames
           chain := chain
           tel := dGetN d "tel"
           website := dGetN d "website"
           distance_km := none }

/-- The output envelope of `run_fs`. -/
structure FsOut where
  context : Ctx
  query : String
  count : ℕ
  results : List FsRecord

/-- The per-id detail loop of `run_fs`: any failing step aborts the whole
loop (there is no per-record isolation in the source). -/
noncomputable def fsDetailLoop (net : ℕ → JValue → NetResp) (ctx : Ctx) :
    List JValue → ℕ → Except PyErr (List FsRecord)
  | [], _ => .ok []
  | fid :: rest, k =>
      match fetch_place_details net k fid with
      | .error e => .error e
      | .ok detail =>
          match summarize_fs detail with
          | .error e => .error e
          | .ok rec0 =>
              match _add_distance ctx.latitude ctx.longitude
                  rec0.latitude rec0.longitude with
              | .error e => .error e
              | .ok dist =>
                  match fsDetailLoop net ctx rest (k + 1) with
                  | .error e => .error e
                  | .ok tail => .ok ({ rec0 with distance_km := dist } :: tail)

/-- `run_fs` (fsgm.py lines 322-345), with the LLM call and the two HTTP
collaborators passed as oracles (`detailNet` indexed by call position). -/
noncomputable def run_fs (llm : LlmResult) (searchNet : PDict → NetResp)
    (detailNet : ℕ → JValue → NetResp) (user_query : String) (ctx : Ctx) :
    Except PyErr FsOut :=
  match generate_fs_params llm user_query ctx with
  | .error e => .error e
  | .ok params =>
      match search_foursquare searchNet params with
      | .error e => .error e
      | .ok ids =>
          match fsDetailLoop detailNet ctx ids 0 with
          | .error e => .error e
          | .ok details =>
              .ok { context := ctx, query := user_query,
                    count := details.length, results := details }

-- ---------- ResilientLocalSearch (fsgm.py lines 439-497) ----------

/-- One `_attempt` inside `fetch_local_results`: every failure — a raised
request, an HTTP 400, any other non-2xx status, an unparsable body — is
caught and collapses to `None`. -/
def _attempt (net : ℕ → PDict → NetResp) (k : ℕ) (p : PDict) : Option JValue :=
  match net k p with
  | .exn => none
  | .resp s body =>
      if s = 400 then none
      else if 400 ≤ s then none
      else
        match body with
        | none => none
        | some j => some j

/-- Final rung of the ladder: drop the location parameter entirely; return
the empty payload when this also fails. -/
def ladderStep3 (net : ℕ → PDict → NetResp) (base : PDict)
    (tr : List (String × PDict)) : Except PyErr JValue × List (String × PDict) :=
  if optTruthy (dGet base "location") then
    let p3 := dRemove base "location"
    let tr3 := tr ++ [("no_location", p3)]
    match _attempt net tr.length p3 with
    | some p => if pyTruthy p then (.ok p, tr3) else (.ok (jobj []), tr3)
    | none => (.ok (jobj []), tr3)
  else (.ok (jobj []), tr)

/-- Middle rung: retry with only the first comma-separated segment of the
location (when that changes it); `loc.split` on a truthy non-string raises. -/
def ladderStep2 (net : ℕ → PDict → NetResp) (base : PDict)
    (tr : List (String × PDict)) : Except PyErr JValue × List (String × PDict) :=
  if optTruthy (dGet base "location") then
    match dGetN base "location" with
    | jstr loc =>
        let aggressive := pyStrip ((pySplitComma loc).headD "")
        if aggressive ≠ "" ∧ aggressive ≠ loc then
          let p2 := dSet base "location" (jstr aggressive)
          let tr2 := tr ++ [("aggressive_location", p2)]
          match _attempt net tr.length p2 with
          | some p => if pyTruthy p then (.ok p, tr2) else ladderStep3 net base tr2
          | none => ladderStep3 net base tr2
        else ladderStep3 net base tr
    | _ => (.error .attrErr, tr)
  else ladderStep3 net base tr

/-- `fetch_local_results` (fsgm.py lines 439-497).  Returns the payload (or
the raised exception) together with the trace of attempted requests, each
tagged as in the source.  The oracle `net` is indexed by call position. -/
def fetch_local_results (net : ℕ → PDict → NetResp) (params : PDict) :
    Except PyErr JValue × List (String × PDict) :=
  let base :=
    match dGet params "location" with
    | some v =>
        if pyTruthy v then
          let simp := _simplify_location v
          if !(JValue.beq simp v) then dSet params "location" simp else params
        else params
    | none => params
  let tr := [("initial", base)]
  match _attempt net 0 base with
  | some p => if pyTruthy p then (.ok p, tr) else ladderStep2 net base tr
  | none => ladderStep2 net base tr

-- ---------- Review resolution (fsgm.py lines 528-670) ----------

/-- `s.startswith("0x")`. -/
def startsWith0x (s : String) : Bool :=
  s.data.take 2 = ['0', 'x']

/-- `_format_google_place_id` (fsgm.py lines 528-546). -/
def _format_google_place_id (id_value : JValue) : PDict :=
  if !(pyTruthy id_value) then []
  else
    match id_value with
    | jstr s =>
        if startsWith0x s then [("data_id", jstr s)] else [("place_id", jstr s)]
    | v => [("place_id", jstr (pyStr v))]

/-- `_select_review_identifier` (fsgm.py lines 549-553). -/
def _select_review_identifier (result : PDict) : PDict :=
  if optTruthy (dGet result "google_place_id") then
    _format_google_place_id (dGetN result "google_place_id")
  else []

/-- The `local_results` fallback scan of `_resolve_data_id_via_maps`. -/
def resolveScan : List JValue → Except PyErr (Option JValue)
  | [] => .ok none
  | it :: rest => do
      let itd ← asObj it
      if optTruthy (dGet itd "data_id") then .ok (some (dGetN itd "data_id"))
      else if optTruthy (dGet itd "place_id") then .ok (some (dGetN itd "place_id"))
      else resolveScan rest

/-- `_resolve_data_id_via_maps` (fsgm.py lines 555-601): returns the
resolved identifier (or `none`) together with the next free call index.
Request-level failures are caught and yield `none`; the `.get` calls on the
decoded body happen outside the `try` and can raise. -/
def _resolve_data_id_via_maps (net : ℕ → PDict → NetResp) (k : ℕ)
    (base_params result : PDict) : Except PyErr (Option JValue × ℕ) := do
  let name := if optTruthy (dGet result "name") then dGetN result "name" else jstr ""
  let address := if optTruthy (dGet result "address") then dGetN result "address" else jstr ""
  let q := pyStrip (pyStr name ++ " " ++ pyStr address)
  if q = "" then return (none, k)
  else
    let params : PDict := [("engine", jstr "google_maps"), ("q", jstr q),
      ("hl", (dGet base_params "hl").getD (jstr "en")),
      ("api_key", dGetN base_params "api_key")]
    match net k params with
    | .exn => return (none, k + 1)
    | .resp s body =>
        if 400 ≤ s then return (none, k + 1)
        else
          match body with
          | none => return (none, k + 1)
          | some data => do
              let dd ← asObj data
              let prRaw := dGetN dd "place_results"
              let pr ← asObj (if pyTruthy prRaw then prRaw else jobj [])
              if optTruthy (dGet pr "data_id") then
                return (some (dGetN pr "data_id"), k + 1)
              else if optTruthy (dGet pr "place_id") then
                return (some (dGetN pr "place_id"), k + 1)
              else do
                let lraw := dGetN dd "local_results"
                let lrs ← pyIterList (if pyTruthy lraw then lraw else jarr [])
                let r ← resolveScan lrs
                return (r, k + 1)

/-- `v[:n]` as applied to the decoded `reviews` value. -/
def pySlice : JValue → ℕ → Except PyErr (List JValue)
  | jarr l, n => .ok (l.take n)
  | jstr s, n => .ok ((s.data.take n).map (fun c => jstr (String.mk [c])))
  | _, _ => .error .typeErr

/-- Normalization of one raw review entry (fsgm.py lines 661-669). -/
def reviewEntry (rv : JValue) : Except PyErr PDict := do
  let rvd ← asObj rv
  let esRaw := (dGet rvd "extracted_snippet").getD (jobj [])
  let esd ← asObj (if pyTruthy esRaw then esRaw else jobj [])
  let orig := dGet esd "original"
  let snippet := if optTruthy orig then orig.getD jnull else dGetN rvd "snippet"
  let userRaw := (dGet rvd "user").getD (jobj [])
  let userd ← asObj (if pyTruthy userRaw then userRaw else jobj [])
  return [("rating", dGetN rvd "rating"), ("date", dGetN rvd "date"),
          ("iso_date", dGetN rvd "iso_date"), ("snippet", snippet),
          ("user", dGetN userd "name"), ("source", dGetN rvd "source")]

/-- The output loop over the sliced review list. -/
def reviewLoop : List JValue → Except PyErr (List PDict)
  | [] => .ok []
  | rv :: rest =>
      match reviewEntry rv with
      | .error e => .error e
      | .ok entry =>
          match reviewLoop rest with
          | .error e => .error e
          | .ok tail => .ok (entry :: tail)

/-- The single retry of `fetch_reviews` (fsgm.py lines 641-658): re-resolve
the identifier and re-fetch; any exception inside the retry `try` collapses
to the empty review list. -/
def reviewsRetry (net : ℕ → PDict → NetResp) (base_params : PDict)
    (rid : JValue) (k2 : ℕ) : JValue :=
  let retry : PDict := [("engine", jstr "google_maps_reviews"),
      ("api_key", dGetN base_params "api_key"),
      ("hl", (dGet base_params "hl").getD (jstr "en"))] ++
      _format_google_place_id rid
  match net k2 retry with
  | .exn => jarr []
  | .resp s body =>
      if 400 ≤ s then jarr []
      else
        match body with
        | none => jarr []
        | some payload2 =>
            match payload2 with
            | jobj p2 =>
                let r2 := (dGet p2 "reviews").getD (jarr [])
                if pyTruthy r2 then r2 else jarr []
            | _ => jarr []

/-- Final stage of `fetch_reviews`: `reviews[:max_reviews]` followed by the
normalization loop. -/
def reviewsFinish (max_reviews : ℕ) (reviews : JValue) :
    Except PyErr (List PDict) :=
  match pySlice reviews max_reviews with
  | .error e => .error e
  | .ok sliced => reviewLoop sliced

/-- The payload of the first reviews call (fsgm.py lines 624-637): any
exception inside the `try` — raised request, non-2xx status, unparsable
body — collapses to the empty dict. -/
def firstReviewsPayload (net : ℕ → PDict → NetResp) (base_params id_param : PDict)
    (k : ℕ) : JValue :=
  let params : PDict := [("engine", jstr "google_maps_reviews"),
      ("api_key", dGetN base_params "api_key"),
      ("hl", (dGet base_params "hl").getD (jstr "en"))] ++ id_param
  match net k params with
  | .exn => jobj []
  | .resp s body => if 400 ≤ s then jobj [] else body.getD (jobj [])

/-- The reviews value after the retry decision (fsgm.py lines 641-658): a
falsy first result triggers one re-resolve + re-fetch. -/
def reviewsAfterFirst (net : ℕ → PDict → NetResp) (base_params result : PDict)
    (k : ℕ) (reviews : JValue) : Except PyErr JValue :=
  if !(pyTruthy reviews) then
    match _resolve_data_id_via_maps net (k + 1) base_params result with
    | .error e => .error e
    | .ok (some rid, k2) => .ok (reviewsRetry net base_params rid k2)
    | .ok (none, _) => .ok reviews
  else .ok reviews

/-- Processing of the decoded first payload: `payload.get("reviews", [])`
(outside the `try`!), the `or []` default, the retry, slicing and
normalization. -/
def reviewsAfterPayload (net : ℕ → PDict → NetResp) (base_params result : PDict)
    (max_reviews k : ℕ) (pd : PDict) : Except PyErr (List PDict) :=
  let reviews0 := (dGet pd "reviews").getD (jarr [])
  let reviews := if pyTruthy reviews0 then reviews0 else jarr []
  match reviewsAfterFirst net base_params result k reviews with
  | .error e => .error e
  | .ok reviews2 => reviewsFinish max_reviews reviews2

/-- Body of `fetch_reviews` once an identifier parameter is fixed: first
reviews call (request-level failures collapse to the empty payload), the
`payload.get` outside the `try`, the single re-resolve retry, slicing and
normalization. -/
def fetchReviewsBody (net : ℕ → PDict → NetResp) (base_params result : PDict)
    (max_reviews : ℕ) (id_param : PDict) (k : ℕ) : Except PyErr (List PDict) :=
  match asObj (firstReviewsPayload net base_params id_param k) with
  | .error e => .error e
  | .ok pd => reviewsAfterPayload net base_params result max_reviews k pd

/-- `fetch_reviews` (fsgm.py lines 613-670). -/
def fetch_reviews (net : ℕ → PDict → NetResp) (base_params result : PDict)
    (max_reviews : ℕ) : Except PyErr (List PDict) :=
  let id_param := _select_review_identifier result
  if id_param.isEmpty then
    match _resolve_data_id_via_maps net 0 base_params result with
    | .error e => .error e
    | .ok (none, _) => .ok []
    | .ok (some rid, k) =>
        fetchReviewsBody net base_params result max_reviews
          (_format_google_place_id rid) k
  else
    fetchReviewsBody net base_params result max_reviews id_param 0

-- ---------- RankingGateway (ranking.py lines 76-125) ----------

/-- The text returned by the ranking LLM call together with its `json.loads`
outcome (`parsed = none` models a `JSONDecodeError` whose message is
`errMsg`). -/
structure LlmText where
  raw : String
  parsed : Option JValue
  errMsg : String

/-- `rank_places_api` (ranking.py lines 76-125).  The input
`combined_results` only feeds the prompt, so the call outcome `llm` is the
sole argument; the result is the returned envelope dict. -/
def rank_places_api (llm : Except String LlmText) : PDict :=
  match llm with
  | .error msg =>
      [("success", jbool false), ("error", jstr msg), ("data", jnull)]
  | .ok t =>
      match t.parsed with
      | some v =>
          [("success", jbool true), ("data", v), ("raw_response", jstr t.raw)]
      | none =>
          [("success", jbool false),
           ("error", jstr ("Invalid JSON response from AI: " ++ t.errMsg)),
           ("raw_response", jstr t.raw)]

/-- The rank values of `data["ranked_places"]`, when that key holds a list
(per-entry: the `rank` field, null when absent or the entry is not an
object). -/
def ranksOf (data : JValue) : Option (List JValue) :=
  match data with
  | jobj d =>
      match dGet d "ranked_places" with
      | some (jarr l) =>
          some (l.map (fun p =>
            match p with
            | jobj pd => dGetN pd "rank"
            | _ => jnull))
      | _ => none
  | _ => none

/-- The spec's structural contract on ranks: 1-based, contiguous, no
duplicates — each integer rank `1..n` occurs exactly once. -/
def ranksContiguous (ranks : List JValue) : Bool :=
  (List.range ranks.length).all (fun i =>
    (ranks.filter (fun v =>
      match v with
      | jnum q => decide (q.den = 1) && decide (q.num = Int.ofNat (i + 1))
      | _ => false)).length = 1)

-- ---------- Claim-side definitions ----------

/-- "Result-count limit of at most 5" on a JSON value, with Python's
`bool <: int` identification (`True == 1`). -/
def limitWithinCap : JValue → Bool
  | jnum q => decide (q ≤ 5)
  | jbool _ => true
  | _ => false

/-- All four coordinates pass the `isinstance((int, float))` guard of
`_add_distance`. -/
def coordsNumeric (clat clon lat lon : JValue) : Bool :=
  isNum clat && isNum clon && isNum lat && isNum lon

/-- The cleaned comma segments `_simplify_location` computes for a string:
split on commas, strip, drop empties, erase the phrase, strip, drop
empties. -/
def cleanedSegs (l : List Char) : List (List Char) :=
  ((((splitL ',' l).map stripL).filter (fun p => ¬ p.isEmpty)).map
    (fun p => stripL (replaceMC p))).filter (fun c => ¬ c.isEmpty)

/-- Oracle for the C1 run: the first call raises (a timeout-class failure,
no HTTP status at all), any later call succeeds with a non-empty payload. -/
def c1Net : ℕ → PDict → NetResp := fun k _ =>
  if k = 0 then .exn
  else .resp 200 (some (jobj [("search_metadata", jstr "ok")]))

/-- Query parameters for the C1 run, with a multi-segment location. -/
def c1Params : PDict :=
  [("engine", jstr "google_local"), ("q", jstr "coffee"),
   ("location", jstr "New Delhi, Delhi, India"), ("api_key", jnull)]

/-- Search oracle for the C3 run: two ids, `"a"` and `"b"`. -/
def c3SearchNet : PDict → NetResp := fun _ =>
  .resp 200 (some (jobj [("results",
    jarr [jobj [("fsq_place_id", jstr "a")], jobj [("fsq_place_id", jstr "b")]])]))

/-- Detail oracle for the C3 run: the first detail call succeeds, the
second raises. -/
def c3DetailNet : ℕ → JValue → NetResp := fun k _ =>
  if k = 0 then .resp 200 (some (jobj [])) else .exn

/-- A concrete user context shared by nothing else: Delhi coordinates. -/
def c3Ctx : Ctx := ⟨jnum 28, jnum 77, "28,77", "UTC", "2026-10-12 10:00", none⟩

-- ==================================================================
--                           THEOREMS
-- ==================================================================

-- ---------- Dict lemmas ----------

theorem dGet_dSet_self (d : PDict) (k : String) (v : JValue) :
    dGet (dSet d k v) k = some v := by
  induction d with
  | nil => simp [dGet, dSet]
  | cons p rest ih =>
      by_cases h : p.1 = k
      · simp [dSet, h, dGet]
      · simp [dSet, h, dGet, ih]

theorem dGet_dSet_ne (d : PDict) (k k' : String) (v : JValue) (h : k' ≠ k) :
    dGet (dSet d k v) k' = dGet d k' := by
  induction d with
  | nil => simp [dGet, dSet, Ne.symm h]
  | cons p rest ih =>
      by_cases hp : p.1 = k
      · subst hp
        simp [dSet, dGet, Ne.symm h]
      · simp [dSet, hp, dGet, ih]

theorem dSet_same (d : PDict) (k : String) (v : JValue) (h : dGet d k = some v) :
    dSet d k v = d := by
  induction d with
  | nil => simp [dGet] at h
  | cons p rest ih =>
      obtain ⟨k1, v1⟩ := p
      by_cases hp : k1 = k
      · subst hp
        simp [dGet] at h
        simp [dSet, h]
      · simp [dGet, hp] at h
        simp [dSet, hp, ih h]

theorem dSet_append (d : PDict) (k : String) (v : JValue) (h : dGet d k = none) :
    dSet d k v = d ++ [(k, v)] := by
  induction d with
  | nil => simp [dSet]
  | cons p rest ih =>
      obtain ⟨k1, v1⟩ := p
      by_cases hp : k1 = k
      · subst hp; simp [dGet] at h
      · simp [dGet, hp] at h
        simp [dSet, hp, ih h]

-- ---------- Claim C8 ----------

/-- Claim C8, counterexample: `rank_places_api` accepts (success = True) an
LLM response whose `ranked_places` ranks are `[2, 2]` — not 1-based, not
contiguous, duplicated — returning the data unchanged.  The claimed rank
invariant does not hold for accepted responses. -/
theorem C8_counterexample :
    dGet (rank_places_api (.ok ⟨"raw", some (jobj [("ranked_places",
        jarr [jobj [("rank", jnum 2)], jobj [("rank", jnum 2)]])]), ""⟩))
      "success" = some (jbool true) ∧
    dGet (rank_places_api (.ok ⟨"raw", some (jobj [("ranked_places",
        jarr [jobj [("rank", jnum 2)], jobj [("rank", jnum 2)]])]), ""⟩))
      "data" = some (jobj [("ranked_places",
        jarr [jobj [("rank", jnum 2)], jobj [("rank", jnum 2)]])]) ∧
    ranksOf (jobj [("ranked_places",
        jarr [jobj [("rank", jnum 2)], jobj [("rank", jnum 2)]])]) =
      some [jnum 2, jnum 2] ∧
    ranksContiguous [jnum 2, jnum 2] = false :=
  ⟨rfl, rfl, rfl, rfl⟩

/-- Claim C8 (amended): `rank_places_api` performs no structural validation
of `ranked_places` — it reports success exactly when the LLM call succeeded
and its text parsed as JSON, passing the parsed data through verbatim; on a
parse failure it reports failure with the raw text preserved.  The
contiguous-rank shape is requested only in the prompt. -/
theorem C8_theorem : ∀ llm : Except String LlmText,
    (dGet (rank_places_api llm) "success" = some (jbool true) ↔
      ∃ t, llm = .ok t ∧ t.parsed.isSome) ∧
    (∀ t v, llm = .ok t → t.parsed = some v →
      dGet (rank_places_api llm) "data" = some v) ∧
    (∀ t, llm = .ok t → t.parsed = none →
      dGet (rank_places_api llm) "success" = some (jbool false) ∧
      dGet (rank_places_api llm) "raw_response" = some (jstr t.raw)) := by
  intro llm
  match llm with
  | .error msg =>
      refine ⟨?_, ?_, ?_⟩
      · simp [rank_places_api, dGet]
      · intro t v ht; cases ht
      · intro t ht; cases ht
  | .ok ⟨raw, some v, e⟩ =>
      refine ⟨?_, ?_, ?_⟩
      · constructor
        · intro _; exact ⟨⟨raw, some v, e⟩, rfl, rfl⟩
        · intro _; rfl
      · intro t w ht hw
        cases ht
        simp only [LlmText.mk.injEq] at hw ⊢
        cases hw
        rfl
      · intro t ht hnone
        cases ht
        simp at hnone
  | .ok ⟨raw, none, e⟩ =>
      refine ⟨?_, ?_, ?_⟩
      · simp only [rank_places_api, dGet]
        constructor
        · intro h; simp at h
        · rintro ⟨t, ht, hs⟩
          cases ht
          simp at hs
      · intro t w ht hw
        cases ht
        simp at hw
      · intro t ht _
        cases ht
        exact ⟨rfl, rfl⟩

/-- Witness for C8: the theorem applied to a concrete parsed response. -/
theorem C8_witness :
    dGet (rank_places_api (.ok ⟨"x", some jnull, ""⟩)) "data" = some jnull :=
  (C8_theorem (.ok ⟨"x", some jnull, ""⟩)).2.1 ⟨"x", some jnull, ""⟩ jnull rfl rfl

-- ---------- Claim C7 ----------

/-- Claim C7, counterexample: the document `{latitude: 0, longitude: 77}`
has both coordinates within range (`validate_coordinates` accepts them),
yet `save_location_cache` rejects it — `not location_data.get('latitude')`
is true for the falsy value `0` — leaving the old cache in place, so
save-then-load does not return the saved coordinates. -/
theorem C7_counterexample :
    save_location_cache (.stored [("latitude", jnum 10), ("longitude", jnum 20)])
        [("latitude", jnum 0), ("longitude", jnum 77)] =
      (false, .stored [("latitude", jnum 10), ("longitude", jnum 20)]) ∧
    get_location_cache (.stored [("latitude", jnum 10), ("longitude", jnum 20)]) =
      some [("latitude", jnum 10), ("longitude", jnum 20)] ∧
    validate_coordinates (jnum 0) (jnum 77) = true :=
  ⟨rfl, rfl, rfl⟩

/-- Claim C7 (amended): save-then-load round-trips exactly for documents
whose coordinates are truthy (non-zero) and within range; a save whose
coordinates fail range validation — or are zero/missing — returns False and
leaves the cached document unchanged. -/
theorem C7_theorem : ∀ (st : CacheFile) (d : PDict),
    (∀ lat lon, dGet d "latitude" = some lat → dGet d "longitude" = some lon →
      pyTruthy lat = true → pyTruthy lon = true →
      validate_coordinates lat lon = true →
      save_location_cache st d = (true, .stored d) ∧
      get_location_cache (.stored d) = some d) ∧
    (validate_coordinates (dGetN d "latitude") (dGetN d "longitude") = false →
      save_location_cache st d = (false, st)) ∧
    (optTruthy (dGet d "latitude") = false ∨ optTruthy (dGet d "longitude") = false →
      save_location_cache st d = (false, st)) := by
  intro st d
  refine ⟨?_, ?_, ?_⟩
  · intro lat lon hlat hlon htl htlo hval
    have h1 : optTruthy (dGet d "latitude") = true := by
      rw [hlat]; simpa [optTruthy] using htl
    have h2 : optTruthy (dGet d "longitude") = true := by
      rw [hlon]; simpa [optTruthy] using htlo
    have h3 : dGetN d "latitude" = lat := by simp [dGetN, hlat]
    have h4 : dGetN d "longitude" = lon := by simp [dGetN, hlon]
    constructor
    · simp [save_location_cache, h1, h2, h3, h4, hval]
    · simp [get_location_cache, h3, h4, hval]
  · intro hv
    by_cases h1 : optTruthy (dGet d "latitude")
    · by_cases h2 : optTruthy (dGet d "longitude")
      · simp [save_location_cache, h1, h2, hv]
      · simp [save_location_cache, h1, h2]
    · simp [save_location_cache, h1]
  · rintro (h | h)
    · simp [save_location_cache, h]
    · by_cases h1 : optTruthy (dGet d "latitude")
      · simp [save_location_cache, h1, h]
      · simp [save_location_cache, h1]

/-- Witness for C7: a truthy in-range document round-trips. -/
theorem C7_witness :
    save_location_cache .absent [("latitude", jnum 12), ("longitude", jnum 77)] =
      (true, .stored [("latitude", jnum 12), ("longitude", jnum 77)]) ∧
    get_location_cache (.stored [("latitude", jnum 12), ("longitude", jnum 77)]) =
      some [("latitude", jnum 12), ("longitude", jnum 77)] :=
  (C7_theorem .absent [("latitude", jnum 12), ("longitude", jnum 77)]).1
    (jnum 12) (jnum 77) rfl rfl rfl rfl rfl

-- ---------- Claim C1 ----------

/-- Claim C1: evaluation of `fetch_local_results` at the failing input.
The first attempt raises a timeout-class exception (no HTTP status, in
particular no 400), yet the ladder still escalates to the
`aggressive_location` attempt and returns its payload — contradicting the
claim (and the function's own docstring) that escalation past attempt 1
happens only on an HTTP 400. -/
theorem C1_theorem :
    (∀ p, c1Net 0 p = .exn) ∧
    (fetch_local_results c1Net c1Params).2.map Prod.fst =
      ["initial", "aggressive_location"] ∧
    (fetch_local_results c1Net c1Params).1 =
      .ok (jobj [("search_metadata", jstr "ok")]) :=
  ⟨fun _ => rfl, rfl, rfl⟩

-- ---------- Claim C3 ----------

/-- Claim C3, counterexample: the search step returns two ids; the detail
call for the first id succeeds and the one for the second id raises.  The
claim requires the failing record to be dropped and the rest returned, but
`run_fs` has no per-record isolation and the whole fetch fails. -/
theorem C3_counterexample :
    fetch_place_details c3DetailNet 0 (jstr "a") = .ok (jobj []) ∧
    fetch_place_details c3DetailNet 1 (jstr "b") = .error .external ∧
    run_fs (.ok none) c3SearchNet c3DetailNet "coffee" c3Ctx = .error .external :=
  ⟨rfl, rfl, rfl⟩

/-- Claim C3 (amended): a per-identifier detail-fetch failure is not
isolated — once the detail loop reaches a failing call, the loop and hence
the whole `run_fs` fetch abort with that error, returning no records
(isolation to an error envelope happens only in `search_places_api`). -/
theorem C3_theorem : ∀ (llm : LlmResult) (sNet : PDict → NetResp)
    (dNet : ℕ → JValue → NetResp) (q : String) (ctx : Ctx)
    (params : PDict) (ids : List JValue) (e : PyErr),
    (∀ fid rest k, fetch_place_details dNet k fid = .error e →
      fsDetailLoop dNet ctx (fid :: rest) k = .error e) ∧
    (generate_fs_params llm q ctx = .ok params →
      search_foursquare sNet params = .ok ids →
      fsDetailLoop dNet ctx ids 0 = .error e →
      run_fs llm sNet dNet q ctx = .error e) := by
  intro llm sNet dNet q ctx params ids e
  constructor
  · intro fid rest k h
    unfold fsDetailLoop
    rw [h]
  · intro h1 h2 h3
    unfold run_fs
    simp only [h1, h2, h3]

/-- Witness for C3: one id whose detail call raises makes the whole
`run_fs` return that error. -/
theorem C3_witness :
    run_fs (.ok none)
      (fun _ => .resp 200 (some (jobj [("results",
        jarr [jobj [("fsq_place_id", jstr "a")]])])))
      (fun _ _ => .exn) "coffee" c3Ctx = .error .external :=
  (C3_theorem (.ok none) _ _ "coffee" c3Ctx (fsFallbackParams "coffee" c3Ctx)
      [jstr "a"] .external).2 rfl rfl
    ((C3_theorem (.ok none)
        (fun _ => .resp 200 (some (jobj [("results",
          jarr [jobj [("fsq_place_id", jstr "a")]])])))
        (fun _ _ => .exn) "coffee" c3Ctx (fsFallbackParams "coffee" c3Ctx)
        [jstr "a"] .external).1 (jstr "a") [] 0 rfl)

-- ---------- Claim C9 ----------

/-- Claim C9, counterexample: the reviews endpoint answers with a JSON
array (HTTP 200); `payload.get("reviews", [])` then runs outside the `try`
and raises `AttributeError`, so `fetch_reviews` raises instead of
collapsing to an empty review list. -/
theorem C9_counterexample :
    fetch_reviews (fun _ _ => .resp 200 (some (jarr []))) [("api_key", jnull)]
      [("google_place_id", jstr "abc")] 3 = .error .attrErr :=
  rfl

theorem reviewLoop_length (l : List JValue) :
    ∀ out, reviewLoop l = .ok out → out.length = l.length := by
  induction l with
  | nil => intro out h; simp [reviewLoop] at h; simp [← h]
  | cons rv rest ih =>
      intro out h
      unfold reviewLoop at h
      cases he : reviewEntry rv with
      | error e => rw [he] at h; cases h
      | ok entry =>
          rw [he] at h
          cases ht : reviewLoop rest with
          | error e => rw [ht] at h; cases h
          | ok tail =>
              rw [ht] at h
              cases h
              simp [ih tail ht]

theorem pySlice_length (v : JValue) (n : ℕ) :
    ∀ l, pySlice v n = .ok l → l.length ≤ n := by
  intro l h
  cases v with
  | jarr xs =>
      simp only [pySlice] at h
      cases h
      simp [List.length_take]
  | jstr s =>
      simp only [pySlice] at h
      cases h
      simp [List.length_take]
  | jnull => exact absurd h (by simp [pySlice])
  | jbool b => exact absurd h (by simp [pySlice])
  | jnum q => exact absurd h (by simp [pySlice])
  | jobj d => exact absurd h (by simp [pySlice])

theorem reviewsFinish_length (reviews : JValue) (maxr : ℕ) :
    ∀ l, reviewsFinish maxr reviews = .ok l → l.length ≤ maxr := by
  intro l h
  unfold reviewsFinish at h
  cases hs : pySlice reviews maxr with
  | error e => rw [hs] at h; cases h
  | ok sliced =>
      rw [hs] at h
      calc l.length = sliced.length := reviewLoop_length sliced l h
        _ ≤ maxr := pySlice_length _ _ sliced hs

theorem reviewsAfterPayload_length (net : ℕ → PDict → NetResp)
    (base_params result : PDict) (maxr k : ℕ) (pd : PDict) :
    ∀ l, reviewsAfterPayload net base_params result maxr k pd = .ok l →
      l.length ≤ maxr := by
  intro l h
  simp only [reviewsAfterPayload] at h
  cases hAF : reviewsAfterFirst net base_params result k
      (if pyTruthy ((dGet pd "reviews").getD (jarr [])) = true then
        (dGet pd "reviews").getD (jarr []) else jarr []) with
  | error e => rw [hAF] at h; cases h
  | ok reviews2 => rw [hAF] at h; exact reviewsFinish_length reviews2 maxr l h

theorem fetchReviewsBody_length (net : ℕ → PDict → NetResp)
    (base_params result : PDict) (maxr : ℕ) (id_param : PDict) (k : ℕ) :
    ∀ l, fetchReviewsBody net base_params result maxr id_param k = .ok l →
      l.length ≤ maxr := by
  intro l h
  unfold fetchReviewsBody at h
  cases hA : asObj (firstReviewsPayload net base_params id_param k) with
  | error e => rw [hA] at h; cases h
  | ok pd =>
      rw [hA] at h
      exact reviewsAfterPayload_length net base_params result maxr k pd l h

/-- Claim C9 (amended): whenever `fetch_reviews` returns a review list at
all, it has at most `max_reviews` entries (3 in the pipeline); and a record
with no usable identifier whose name/address resolution yields nothing
gives the empty list without raising.  Raising is still possible — a
successful reviews response whose JSON body is not an object escapes the
`try` (see the counterexample). -/
theorem C9_theorem : ∀ (net : ℕ → PDict → NetResp) (base_params result : PDict)
    (maxr : ℕ),
    (∀ l, fetch_reviews net base_params result maxr = .ok l → l.length ≤ maxr) ∧
    (_select_review_identifier result = [] →
      ∀ k, _resolve_data_id_via_maps net 0 base_params result = .ok (none, k) →
        fetch_reviews net base_params result maxr = .ok []) := by
  intro net base_params result maxr
  constructor
  · intro l h
    simp only [fetch_reviews] at h
    by_cases hE : (_select_review_identifier result).isEmpty
    · rw [if_pos hE] at h
      cases hres : _resolve_data_id_via_maps net 0 base_params result with
      | error e => rw [hres] at h; cases h
      | ok pr =>
          obtain ⟨rid?, k⟩ := pr
          cases rid? with
          | none => rw [hres] at h; cases h; simp
          | some rid =>
              rw [hres] at h
              exact fetchReviewsBody_length _ _ _ _ _ _ l h
    · rw [if_neg hE] at h
      exact fetchReviewsBody_length _ _ _ _ _ _ l h
  · intro hsel k hres
    simp only [fetch_reviews, hsel]
    rw [if_pos (by rfl)]
    rw [hres]

/-- Witness for C9: a record with null identifier, name and address yields
the empty review list, and the bound holds trivially. -/
theorem C9_witness :
    fetch_reviews (fun _ _ => .exn) []
      [("google_place_id", jnull), ("name", jnull), ("address", jnull)] 3 =
      .ok [] :=
  (C9_theorem (fun _ _ => .exn) []
      [("google_place_id", jnull), ("name", jnull), ("address", jnull)] 3).2
    rfl 0 rfl

-- ---------- Claim C2 ----------

/-- Claim C2, counterexample: an LLM call failure propagates out of the
directory planner as an exception instead of producing the deterministic
default; and the web-local planner's fallback anchors on the derived
location text, never on the context coordinates — with no text available
its `location` is null and no coordinate parameter exists at all. -/
theorem C2_counterexample :
    generate_fs_params (.error ()) "pizza"
        ⟨jnum 28, jnum 77, "28,77", "UTC", "2026-10-12 10:00", none⟩ =
      .error .external ∧
    (generate_serp_params jnull (.ok none) "pizza"
        ⟨jnum 28, jnum 77, "28,77", "UTC", "2026-10-12 10:00", none⟩).map
      (fun d => (dGet d "location", dGet d "ll")) = .ok (some jnull, none) :=
  ⟨rfl, rfl⟩

theorem fsPost_fallback (p : String) (ctx : Ctx) :
    fsPost ctx (jobj (fsFallbackParams p ctx)) = .ok (fsFallbackParams p ctx) := by
  have hlim : dGet (fsFallbackParams p ctx) "limit" = some (jnum 5) := by
    simp [fsFallbackParams, dGet]
  have hll : dGet (fsFallbackParams p ctx) "ll" = some (jstr ctx.ll) := by
    simp [fsFallbackParams, dGet]
  have hnear : dGet (fsFallbackParams p ctx) "near" = some jnull := by
    simp [fsFallbackParams, dGet]
  have hstep : fsStepLimit (fsFallbackParams p ctx) = .ok (fsFallbackParams p ctx) := by
    unfold fsStepLimit
    rw [hlim]
    simp [optTruthy, pyTruthy, pyGtNum]
  have hstep2 : fsStepLl ctx (fsFallbackParams p ctx) = fsFallbackParams p ctx := by
    unfold fsStepLl
    rw [hll, hnear]
    by_cases hc : ctx.ll = ""
    · rw [if_pos (by simp [optTruthy, pyTruthy, hc])]
      exact dSet_same _ _ _ (by rw [hll, hc])
    · rw [if_neg (by simp [optTruthy, pyTruthy, hc])]
  have e1 : fsPost ctx (jobj (fsFallbackParams p ctx)) =
      (match fsStepLimit (fsFallbackParams p ctx) with
       | .error e => (.error e : Except PyErr PDict)
       | .ok d2 => .ok (fsStepLl ctx d2)) := rfl
  rw [e1, hstep]
  simp [hstep2]

theorem serpPost_fallback (p : String) (ctx : Ctx) (apiKey : JValue) :
    serpPost apiKey ctx (jobj (serpFallbackParams p ctx)) =
      .ok (serpFallbackParams p ctx ++ [("api_key", apiKey)]) := by
  have heng : dGet (serpFallbackParams p ctx) "engine" =
      some (jstr "google_local") := by
    simp [serpFallbackParams, dGet]
  have hloc : dGet (serpFallbackParams p ctx) "location" =
      some (if ctxTextTruthy ctx then ctx.text_location.getD jnull else jnull) := by
    simp [serpFallbackParams, dGet]
  have hhl : dGet (serpFallbackParams p ctx) "hl" = some (jstr "en") := by
    simp [serpFallbackParams, dGet]
  have hgl : dGet (serpFallbackParams p ctx) "gl" = some (jstr "in") := by
    simp [serpFallbackParams, dGet]
  have hnum : dGet (serpFallbackParams p ctx) "num" = some (jnum 10) := by
    simp [serpFallbackParams, dGet]
  have hkey : dGet (serpFallbackParams p ctx) "api_key" = none := by
    simp [serpFallbackParams, dGet]
  have hsd : dSetdefault (serpFallbackParams p ctx) "engine"
      (jstr "google_local") = serpFallbackParams p ctx := by
    simp [dSetdefault, heng]
  have hstepLoc : serpStepLocation ctx (serpFallbackParams p ctx) =
      serpFallbackParams p ctx := by
    unfold serpStepLocation
    cases ht : ctx.text_location with
    | none => rw [if_neg (by simp [ctxTextTruthy, optTruthy, ht])]
    | some tv =>
        by_cases htv : pyTruthy tv
        · rw [if_neg (by
            simp only [hloc, ctxTextTruthy, optTruthy, ht, Option.map_some',
              Option.getD_some, htv]
            simp [htv])]
        · rw [if_neg (by simp [ctxTextTruthy, optTruthy, ht, htv])]
  have hstepNum : serpStepNum (serpFallbackParams p ctx) =
      serpFallbackParams p ctx := by
    unfold serpStepNum
    rw [hnum]
  have hsetHl : serpSetHl (serpFallbackParams p ctx) = serpFallbackParams p ctx := by
    unfold serpSetHl
    rw [hhl]
    rw [show (optTruthy (some (jstr "en"))) = true by simp [optTruthy, pyTruthy]]
    rw [if_pos rfl, show dGetN (serpFallbackParams p ctx) "hl" = jstr "en" by
      simp [dGetN, hhl]]
    exact dSet_same _ _ _ hhl
  have hsetGl : serpSetGl (serpFallbackParams p ctx) = serpFallbackParams p ctx := by
    unfold serpSetGl
    rw [hgl]
    rw [show (optTruthy (some (jstr "in"))) = true by simp [optTruthy, pyTruthy]]
    rw [if_pos rfl, show dGetN (serpFallbackParams p ctx) "gl" = jstr "in" by
      simp [dGetN, hgl]]
    exact dSet_same _ _ _ hgl
  have hsetNum : serpSetNum10 (serpFallbackParams p ctx) = serpFallbackParams p ctx := by
    unfold serpSetNum10
    rw [hnum]
    rw [show (optTruthy (some (jnum 10))) = true by simp [optTruthy, pyTruthy]]
    rw [if_pos rfl, show dGetN (serpFallbackParams p ctx) "num" = jnum 10 by
      simp [dGetN, hnum]]
    exact dSet_same _ _ _ hnum
  have hstepDef : serpStepDefaults (serpFallbackParams p ctx) =
      serpFallbackParams p ctx := by
    unfold serpStepDefaults
    rw [hsetHl, hsetGl, hsetNum]
  have e1 : serpPost apiKey ctx (jobj (serpFallbackParams p ctx)) =
      .ok (dSet (serpStepDefaults (serpStepNum (serpStepLocation ctx
        (dSetdefault (serpFallbackParams p ctx) "engine" (jstr "google_local")))))
        "api_key" apiKey) := rfl
  rw [e1, hsd, hstepLoc, hstepNum, hstepDef, dSet_append _ _ _ hkey]

/-- Claim C2 (amended): when the LLM call succeeds but its output is not
parseable JSON, both planners return their deterministic defaults — the
directory planner anchored on the context coordinate string and capped at
5, the web-local planner anchored on the context's derived location text
(null when absent) with num 10 — but when the LLM call itself raises, the
exception propagates to the caller. -/
theorem C2_theorem : ∀ (p : String) (ctx : Ctx) (apiKey : JValue),
    generate_fs_params (.ok none) p ctx = .ok (fsFallbackParams p ctx) ∧
    generate_serp_params apiKey (.ok none) p ctx =
      .ok (serpFallbackParams p ctx ++ [("api_key", apiKey)]) ∧
    generate_fs_params (.error ()) p ctx = .error .external ∧
    generate_serp_params apiKey (.error ()) p ctx = .error .external := by
  intro p ctx apiKey
  exact ⟨fsPost_fallback p ctx, serpPost_fallback p ctx apiKey, rfl, rfl⟩

-- ---------- Claim C6 ----------

/-- Claim C6: every successfully returned directory-planner dict carries a
`limit` of at most 5 (after clamping), and when the parsed LLM output has
neither a truthy `ll` nor a truthy `near`, the final dict's `ll` is the
context's coordinate string. -/
theorem C6_theorem : ∀ (llm : LlmResult) (p : String) (ctx : Ctx) (d : PDict),
    generate_fs_params llm p ctx = .ok d →
    (∃ v, dGet d "limit" = some v ∧ limitWithinCap v = true) ∧
    (∀ d0, fsParsedParams llm p ctx = .ok (jobj d0) →
      optTruthy (dGet d0 "ll") = false → optTruthy (dGet d0 "near") = false →
      dGet d "ll" = some (jstr ctx.ll)) := by
  intro llm p ctx d h
  unfold generate_fs_params at h
  cases hp : fsParsedParams llm p ctx with
  | error e => rw [hp] at h; cases h
  | ok v =>
      rw [hp] at h
      cases v with
      | jobj d0 =>
          replace h : (match fsStepLimit d0 with
              | .error e => (.error e : Except PyErr PDict)
              | .ok d2 => .ok (fsStepLl ctx d2)) = .ok d := h
          cases hs : fsStepLimit d0 with
          | error e => rw [hs] at h; cases h
          | ok d2 =>
              rw [hs] at h
              cases h
              have hfacts : (dGet d2 "limit" = some (jnum 5) ∨
                  (∃ w, dGet d2 "limit" = some w ∧ limitWithinCap w = true)) ∧
                  dGet d2 "ll" = dGet d0 "ll" ∧
                  dGet d2 "near" = dGet d0 "near" := by
                unfold fsStepLimit at hs
                by_cases hc1 : optTruthy (dGet d0 "limit")
                · rw [if_neg (by simp [hc1])] at hs
                  obtain ⟨w, hw⟩ : ∃ w, dGet d0 "limit" = some w := by
                    cases hq : dGet d0 "limit" with
                    | none => rw [hq] at hc1; simp [optTruthy] at hc1
                    | some w => exact ⟨w, rfl⟩
                  rw [hw, Option.getD_some] at hs
                  cases hgt : pyGtNum w 5 with
                  | error e => rw [hgt] at hs; cases hs
                  | ok b =>
                      rw [hgt] at hs
                      cases b with
                      | true =>
                          replace hs : Except.ok (dSet d0 "limit" (jnum 5)) =
                              Except.ok d2 := hs
                          cases hs
                          exact ⟨Or.inl (dGet_dSet_self _ _ _),
                            dGet_dSet_ne _ _ _ _ (by decide),
                            dGet_dSet_ne _ _ _ _ (by decide)⟩
                      | false =>
                          replace hs : Except.ok d0 = Except.ok d2 := hs
                          cases hs
                          have hcap : limitWithinCap w = true := by
                            cases w with
                            | jnum q =>
                                simp only [pyGtNum, Except.ok.injEq] at hgt
                                simp only [limitWithinCap, decide_eq_true_eq]
                                have := of_decide_eq_false hgt
                                linarith
                            | jbool bb => simp [limitWithinCap]
                            | jnull => simp [pyGtNum] at hgt
                            | jstr s => simp [pyGtNum] at hgt
                            | jarr l => simp [pyGtNum] at hgt
                            | jobj o => simp [pyGtNum] at hgt
                          exact ⟨Or.inr ⟨w, hw, hcap⟩, rfl, rfl⟩
                · rw [if_pos (by simp [hc1])] at hs
                  cases hs
                  exact ⟨Or.inl (dGet_dSet_self _ _ _),
                    dGet_dSet_ne _ _ _ _ (by decide),
                    dGet_dSet_ne _ _ _ _ (by decide)⟩
              obtain ⟨hlim2, hll2, hnear2⟩ := hfacts
              constructor
              · unfold fsStepLl
                by_cases hguard : (!(optTruthy (dGet d2 "ll")) &&
                    !(optTruthy (dGet d2 "near"))) = true
                · rw [if_pos hguard]
                  rcases hlim2 with h5 | ⟨w, hw2, hwcap⟩
                  · exact ⟨jnum 5, by rw [dGet_dSet_ne _ _ _ _ (by decide), h5],
                      by simp [limitWithinCap]⟩
                  · exact ⟨w, by rw [dGet_dSet_ne _ _ _ _ (by decide), hw2], hwcap⟩
                · rw [if_neg hguard]
                  rcases hlim2 with h5 | ⟨w, hw2, hwcap⟩
                  · exact ⟨jnum 5, h5, by simp [limitWithinCap]⟩
                  · exact ⟨w, hw2, hwcap⟩
              · intro d0' h0 hll0 hnear0
                have hd0 : d0' = d0 := by
                  injection h0 with h1
                  injection h1 with h2
                  exact h2.symm
                subst hd0
                unfold fsStepLl
                rw [hll2, hnear2, hll0, hnear0]
                simp only [Bool.not_false, Bool.and_self, if_true]
                exact dGet_dSet_self d2 "ll" (jstr ctx.ll)
      | jnull => simp [fsPost, asObj] at h
      | jbool b => simp [fsPost, asObj] at h
      | jnum q => simp [fsPost, asObj] at h
      | jstr s => simp [fsPost, asObj] at h
      | jarr l => simp [fsPost, asObj] at h

/-- Witness for C6: the empty parsed LLM object gets `limit = 5` and the
context coordinates injected. -/
theorem C6_witness :
    dGet [("limit", jnum 5), ("ll", jstr "28,77")] "ll" = some (jstr "28,77") ∧
    (∃ v, dGet [("limit", jnum 5), ("ll", jstr "28,77")] "limit" = some v ∧
      limitWithinCap v = true) :=
  ⟨(C6_theorem (.ok (some (jobj []))) "x"
      ⟨jnum 28, jnum 77, "28,77", "UTC", "t", none⟩
      [("limit", jnum 5), ("ll", jstr "28,77")] rfl).2 [] rfl rfl rfl,
   (C6_theorem (.ok (some (jobj []))) "x"
      ⟨jnum 28, jnum 77, "28,77", "UTC", "t", none⟩
      [("limit", jnum 5), ("ll", jstr "28,77")] rfl).1⟩

-- ---------- Claim C10 ----------

theorem splitL_ne_nil (sep : Char) (l : List Char) : splitL sep l ≠ [] := by
  induction l with
  | nil => simp [splitL]
  | cons c rest ih =>
      by_cases h : c = sep
      · simp [splitL, h]
      · simp only [splitL, if_neg h]
        cases hs : splitL sep rest with
        | nil => simp
        | cons g gs => simp

theorem splitL_of_not_mem {sep : Char} {l : List Char} (h : sep ∉ l) :
    splitL sep l = [l] := by
  induction l with
  | nil => rfl
  | cons c rest ih =>
      have hc : c ≠ sep := fun he => h (he ▸ List.mem_cons_self c rest)
      have hr : sep ∉ rest := fun hm => h (List.mem_cons_of_mem c hm)
      simp [splitL, hc, ih hr]

theorem splitL_append {sep : Char} {a : List Char} (b : List Char) (h : sep ∉ a) :
    splitL sep (a ++ sep :: b) = a :: splitL sep b := by
  induction a with
  | nil => simp [splitL]
  | cons c rest ih =>
      have hc : c ≠ sep := fun he => h (he ▸ List.mem_cons_self c rest)
      have hr : sep ∉ rest := fun hm => h (List.mem_cons_of_mem c hm)
      simp [splitL, hc, ih hr]

theorem not_mem_of_mem_splitL {sep : Char} {l g : List Char}
    (hg : g ∈ splitL sep l) : sep ∉ g := by
  induction l generalizing g with
  | nil =>
      simp only [splitL, List.mem_singleton] at hg
      subst hg; simp
  | cons c rest ih =>
      by_cases h : c = sep
      · simp only [splitL, if_pos h] at hg
        rcases List.mem_cons.mp hg with rfl | hg'
        · simp
        · exact ih hg'
      · simp only [splitL, if_neg h] at hg
        cases hs : splitL sep rest with
        | nil => exact absurd hs (splitL_ne_nil sep rest)
        | cons g0 gs =>
            rw [hs] at hg
            rcases List.mem_cons.mp hg with rfl | hg'
            · intro hmem
              rcases List.mem_cons.mp hmem with h' | hm
              · exact h h'.symm
              · exact (ih (hs ▸ List.mem_cons_self g0 gs)) hm
            · exact ih (hs ▸ List.mem_cons_of_mem g0 hg')

theorem mem_stripL {x : Char} {l : List Char} (h : x ∈ stripL l) : x ∈ l := by
  unfold stripL at h
  rw [List.mem_reverse] at h
  have h2 := (List.dropWhile_sublist (l := (l.dropWhile Char.isWhitespace).reverse)
    (p := Char.isWhitespace)).subset h
  rw [List.mem_reverse] at h2
  exact (List.dropWhile_sublist (l := l) (p := Char.isWhitespace)).subset h2

theorem mem_replaceGo_nil {x o : Char} {os : List Char} :
    ∀ (l : List Char) (n : ℕ), x ∈ replaceGo o os [] l n → x ∈ l := by
  intro l
  induction l with
  | nil => intro n h; simp [replaceGo] at h
  | cons c rest ih =>
      intro n h
      cases n with
      | succ m =>
          simp only [replaceGo] at h
          exact List.mem_cons_of_mem c (ih m h)
      | zero =>
          by_cases hm : (c :: List.take os.length rest = o :: os)
          · rw [show replaceGo o os [] (c :: rest) 0 =
                [] ++ replaceGo o os [] rest os.length by
                  simp [replaceGo, hm]] at h
            simp only [List.nil_append] at h
            exact List.mem_cons_of_mem c (ih _ h)
          · rw [show replaceGo o os [] (c :: rest) 0 =
                c :: replaceGo o os [] rest 0 by
                  simp [replaceGo, hm]] at h
            rcases List.mem_cons.mp h with rfl | h'
            · exact List.mem_cons_self _ _
            · exact List.mem_cons_of_mem c (ih 0 h')

theorem stripL_eq_rdrop (l : List Char) :
    stripL l = List.rdropWhile (fun c => c.isWhitespace)
      (List.dropWhile (fun c => c.isWhitespace) l) := rfl

theorem stripL_idem (l : List Char) : stripL (stripL l) = stripL l := by
  rw [stripL_eq_rdrop l, stripL_eq_rdrop]
  have key : List.dropWhile (fun c => c.isWhitespace)
      (List.rdropWhile (fun c => c.isWhitespace)
        (List.dropWhile (fun c => c.isWhitespace) l)) =
      List.rdropWhile (fun c => c.isWhitespace)
        (List.dropWhile (fun c => c.isWhitespace) l) := by
    apply List.dropWhile_eq_self_iff.mpr
    intro hl
    have hlen : 0 < (List.dropWhile (fun c => c.isWhitespace) l).length :=
      lt_of_lt_of_le hl (List.IsPrefix.length_le (List.rdropWhile_prefix _ _))
    have hget : (List.rdropWhile (fun c => c.isWhitespace)
        (List.dropWhile (fun c => c.isWhitespace) l)).get ⟨0, hl⟩ =
        (List.dropWhile (fun c => c.isWhitespace) l).get ⟨0, hlen⟩ := by
      simp only [List.get_eq_getElem]
      exact List.IsPrefix.getElem (List.rdropWhile_prefix _ _) hl
    rw [hget]
    exact List.dropWhile_get_zero_not _ _ hlen
  rw [key, List.rdropWhile_idempotent]

theorem stripL_cons_space (l : List Char) : stripL (' ' :: l) = stripL l := by
  unfold stripL
  rw [List.dropWhile_cons]
  simp

theorem cleanedSegs_spec {l c : List Char} (hc : c ∈ cleanedSegs l) :
    c ≠ [] ∧ (',' ∉ c) ∧ stripL c = c := by
  unfold cleanedSegs at hc
  rcases List.mem_filter.mp hc with ⟨hc1, hc2⟩
  rcases List.mem_map.mp hc1 with ⟨p, hp, rfl⟩
  rcases List.mem_filter.mp hp with ⟨hp1, _⟩
  rcases List.mem_map.mp hp1 with ⟨s0, hs0, rfl⟩
  refine ⟨?_, ?_, stripL_idem _⟩
  · intro hnil
    rw [hnil] at hc2
    simp at hc2
  · intro hmem
    exact not_mem_of_mem_splitL hs0
      (mem_stripL (mem_replaceGo_nil _ _ (mem_stripL hmem)))

theorem simplifyCore_single {c1 : List Char} (h1 : c1 ≠ []) (hc : ',' ∉ c1)
    (hs : stripL c1 = c1) (hr : replaceMC c1 = c1) :
    simplifyCoreL c1 = c1 := by
  unfold simplifyCoreL
  rw [splitL_of_not_mem hc]
  simp only [List.map_cons, List.map_nil, hs]
  rw [List.filter_cons_of_pos (by simpa using h1), List.filter_nil]
  rw [if_neg (by simp)]
  simp only [List.map_cons, List.map_nil, replaceMC, hr]
  rw [show replaceGo 'M' "unicipal Corporation".data [] c1 0 = c1 from hr, hs]
  rw [List.filter_cons_of_pos (by simpa using h1), List.filter_nil]
  simp only [List.take, joinL]
  rw [if_neg (by simpa using h1)]

theorem simplifyCore_pair {c1 c2 : List Char} (h1 : c1 ≠ []) (h2 : c2 ≠ [])
    (hc1 : ',' ∉ c1) (hc2 : ',' ∉ c2) (hs1 : stripL c1 = c1)
    (hs2 : stripL c2 = c2) (hr1 : replaceMC c1 = c1) (hr2 : replaceMC c2 = c2) :
    simplifyCoreL (c1 ++ ',' :: ' ' :: c2) = c1 ++ ',' :: ' ' :: c2 := by
  have hsp2 : ',' ∉ ' ' :: c2 := by
    intro hm
    rcases List.mem_cons.mp hm with h' | h'
    · exact absurd h'.symm (by decide)
    · exact hc2 h'
  unfold simplifyCoreL
  rw [splitL_append (' ' :: c2) hc1, splitL_of_not_mem hsp2]
  simp only [List.map_cons, List.map_nil, hs1, stripL_cons_space, hs2]
  rw [List.filter_cons_of_pos (by simpa using h1),
    List.filter_cons_of_pos (by simpa using h2), List.filter_nil]
  rw [if_neg (by simp)]
  simp only [List.map_cons, List.map_nil, replaceMC]
  rw [show replaceGo 'M' "unicipal Corporation".data [] c1 0 = c1 from hr1,
    show replaceGo 'M' "unicipal Corporation".data [] c2 0 = c2 from hr2, hs1, hs2]
  rw [List.filter_cons_of_pos (by simpa using h1),
    List.filter_cons_of_pos (by simpa using h2), List.filter_nil]
  simp only [List.take, joinL]
  rw [if_neg (by simp [h1])]
  simp

/-- Shape analysis of `simplifyCoreL`: the result is either the input
unchanged, a single cleaned segment, or two cleaned segments joined with
", ". -/
theorem simplifyCoreL_cases (l : List Char) :
    simplifyCoreL l = l ∨
    (∃ c1, (cleanedSegs l).take 2 = [c1] ∧ c1 ∈ cleanedSegs l ∧
      simplifyCoreL l = c1) ∨
    (∃ c1 c2, (cleanedSegs l).take 2 = [c1, c2] ∧ c1 ∈ cleanedSegs l ∧
      c2 ∈ cleanedSegs l ∧ simplifyCoreL l = c1 ++ ',' :: ' ' :: c2) := by
  have heq : simplifyCoreL l =
      (if ((((splitL ',' l).map stripL).filter (fun p => ¬ p.isEmpty)).isEmpty)
        then l
       else if (joinL [',', ' '] ((cleanedSegs l).take 2)).isEmpty then l
       else joinL [',', ' '] ((cleanedSegs l).take 2)) := rfl
  rw [heq]
  by_cases hp : (((splitL ',' l).map stripL).filter
      (fun p => ¬ p.isEmpty)).isEmpty
  · left; rw [if_pos hp]
  · rw [if_neg hp]
    cases ht : (cleanedSegs l).take 2 with
    | nil => left; simp [joinL]
    | cons c1 tl =>
        have hc1m : c1 ∈ cleanedSegs l :=
          List.take_subset 2 _ (ht ▸ List.mem_cons_self c1 tl)
        have hc1ne : c1 ≠ [] := (cleanedSegs_spec hc1m).1
        cases tl with
        | nil =>
            right; left
            refine ⟨c1, rfl, hc1m, ?_⟩
            rw [if_neg (by simp [joinL, hc1ne])]
            simp [joinL]
        | cons c2 tl2 =>
            have hc2m : c2 ∈ cleanedSegs l :=
              List.take_subset 2 _ (ht ▸ List.mem_cons_of_mem c1
                (List.mem_cons_self c2 tl2))
            have htl2 : tl2 = [] := by
              have hlen := congrArg List.length ht
              simp [List.length_take] at hlen
              cases tl2 with
              | nil => rfl
              | cons a b => simp at hlen; omega
            subst htl2
            right; right
            refine ⟨c1, c2, rfl, hc1m, hc2m, ?_⟩
            rw [if_neg (by simp [joinL, hc1ne])]
            simp [joinL]

/-- `_simplify_location` on a non-empty string is the core computation. -/
theorem simplify_jstr {s : String} (h : s ≠ "") :
    _simplify_location (jstr s) = jstr (String.mk (simplifyCoreL s.data)) := by
  unfold _simplify_location
  rw [if_neg (by simp [pyTruthy, isStr, h])]
  rfl

/-- Claim C10, counterexample to idempotence as stated: one application
leaves a segment that still contains the dropped phrase (erasing
"Municipal Corporation" from "MuniMunicipal Corporationcipal Corporation"
recreates it), and the second application then removes it. -/
theorem C10_counterexample :
    _simplify_location (jstr "MuniMunicipal Corporationcipal Corporation, Delhi") =
      jstr "Municipal Corporation, Delhi" ∧
    _simplify_location (jstr "Municipal Corporation, Delhi") = jstr "Delhi" ∧
    ("Municipal Corporation, Delhi" : String) ≠ "Delhi" :=
  ⟨rfl, rfl, by decide⟩

/-- Claim C10 (amended): `_simplify_location` never raises (it is total),
returns non-string or falsy inputs unchanged, and is idempotent at every
string whose first two cleaned segments contain no residual occurrence of
the dropped phrase — i.e. whenever one erasure pass is already a fixpoint
on each kept segment.  (The counterexample shows idempotence fails without
that condition.) -/
theorem C10_theorem : ∀ (v : JValue),
    ((isStr v = false ∨ pyTruthy v = false) → _simplify_location v = v) ∧
    (∀ s : String, v = jstr s →
      (∀ c ∈ (cleanedSegs s.data).take 2, replaceMC c = c) →
      _simplify_location (_simplify_location v) = _simplify_location v) := by
  have base : ∀ (v : JValue), (isStr v = false ∨ pyTruthy v = false) →
      _simplify_location v = v := by
    intro v hv
    unfold _simplify_location
    have hcond : (!(pyTruthy v) || !(isStr v)) = true := by
      rcases hv with hv | hv <;> simp [hv]
    rw [if_pos hcond]
  intro v
  refine ⟨base v, ?_⟩
  intro s hveq hfix
  subst hveq
  by_cases hs0 : s = ""
  · have hb := base (jstr s) (Or.inr (by simp [pyTruthy, hs0]))
    rw [hb]
    exact hb
  · rw [simplify_jstr hs0]
    rcases simplifyCoreL_cases s.data with hcase | hcase | hcase
    · rw [hcase]
      have hmk : String.mk s.data = s := rfl
      rw [hmk, simplify_jstr hs0, hcase]
    · obtain ⟨c1, ht, hc1m, hres⟩ := hcase
      obtain ⟨h1ne, h1c, h1s⟩ := cleanedSegs_spec hc1m
      have h1r : replaceMC c1 = c1 := hfix c1 (ht ▸ List.mem_cons_self c1 [])
      rw [hres]
      have hne : String.mk c1 ≠ "" := by
        intro he
        exact h1ne (congrArg String.data he)
      rw [simplify_jstr hne]
      have hdata : (String.mk c1).data = c1 := rfl
      rw [hdata, simplifyCore_single h1ne h1c h1s h1r]
    · obtain ⟨c1, c2, ht, hc1m, hc2m, hres⟩ := hcase
      obtain ⟨h1ne, h1c, h1s⟩ := cleanedSegs_spec hc1m
      obtain ⟨h2ne, h2c, h2s⟩ := cleanedSegs_spec hc2m
      have h1r : replaceMC c1 = c1 := hfix c1 (ht ▸ List.mem_cons_self c1 [c2])
      have h2r : replaceMC c2 = c2 :=
        hfix c2 (ht ▸ List.mem_cons_of_mem c1 (List.mem_cons_self c2 []))
      rw [hres]
      have hne : String.mk (c1 ++ ',' :: ' ' :: c2) ≠ "" := by
        intro he
        have hd := congrArg String.data he
        simp at hd
      rw [simplify_jstr hne]
      have hdata : (String.mk (c1 ++ ',' :: ' ' :: c2)).data =
          c1 ++ ',' :: ' ' :: c2 := rfl
      rw [hdata, simplifyCore_pair h1ne h2ne h1c h2c h1s h2s h1r h2r]

/-- Witness for C10: a non-string value is returned unchanged, and a plain
two-segment location string is a fixpoint of a second simplification. -/
theorem C10_witness :
    _simplify_location (jnum 3) = jnum 3 ∧
    _simplify_location (_simplify_location (jstr "Delhi, India")) =
      _simplify_location (jstr "Delhi, India") :=
  ⟨(C10_theorem (jnum 3)).1 (Or.inl rfl),
   (C10_theorem (jstr "Delhi, India")).2 "Delhi, India" rfl (by decide)⟩

-- ---------- Claims C4 and C5 ----------

open Real in
theorem sin_sq_half_eq (x : ℝ) : sin (x / 2) ^ 2 = (1 - cos x) / 2 := by
  have h1 := Real.sin_sq (x / 2)
  have h2 := Real.cos_sq (x / 2)
  rw [show 2 * (x / 2) = x by ring] at h2
  rw [h1, h2]; ring

theorem radians_sub (a b : ℝ) : radians (a - b) = radians a - radians b := by
  unfold radians; ring

open Real in
/-- The haversine intermediate `a` always lies in `[0, 1]` over the exact
reals, for arbitrary (even out-of-range) coordinates: it is a convex
combination of `sin²(Δφ/2)` and `(1 + cos(φ1 + φ2))/2`, both in `[0, 1]`.
Hence neither `math.sqrt` call can see a negative argument. -/
theorem havA_mem_unit (lat1 lon1 lat2 lon2 : ℝ) :
    0 ≤ havA lat1 lon1 lat2 lon2 ∧ havA lat1 lon1 lat2 lon2 ≤ 1 := by
  unfold havA
  rw [radians_sub lat2 lat1]
  set u := radians lat1 with hu
  set v := radians lat2 with hv
  set s := sin (radians (lon2 - lon1) / 2) ^ 2 with hs
  set H := sin ((v - u) / 2) ^ 2 with hH
  have hH0 : 0 ≤ H := sq_nonneg _
  have hH1 : H ≤ 1 := Real.sin_sq_le_one _
  have hs0 : 0 ≤ s := sq_nonneg _
  have hs1 : s ≤ 1 := Real.sin_sq_le_one _
  have hHC : H + cos u * cos v = (1 + cos (u + v)) / 2 := by
    rw [hH, sin_sq_half_eq, Real.cos_add, Real.cos_sub]
    ring
  have hHC0 : 0 ≤ H + cos u * cos v := by
    rw [hHC]; nlinarith [Real.neg_one_le_cos (u + v)]
  have hHC1 : H + cos u * cos v ≤ 1 := by
    rw [hHC]; nlinarith [Real.cos_le_one (u + v)]
  constructor
  · nlinarith [mul_nonneg hH0 (sub_nonneg.mpr hs1), mul_nonneg hHC0 hs0]
  · nlinarith [mul_le_mul_of_nonneg_right hH1 (sub_nonneg.mpr hs1),
      mul_le_mul_of_nonneg_right hHC1 hs0]

open Real in
theorem atan2_nonneg {y : ℝ} (x : ℝ) (hy : 0 ≤ y) : 0 ≤ atan2 y x := by
  unfold atan2
  split_ifs with h1 h2 h3 h4 h5
  · calc (0:ℝ) = arctan 0 := Real.arctan_zero.symm
      _ ≤ arctan (y / x) :=
        Real.arctan_strictMono.monotone (div_nonneg hy h1.le)
  · nlinarith [Real.neg_pi_div_two_lt_arctan (y / x), Real.pi_pos]
  · linarith [h3.2]
  · linarith [Real.pi_pos]
  · linarith [h5.2]
  · exact le_refl 0

theorem bankRound_nonneg (x : ℝ) (hx : 0 ≤ x) : (0:ℤ) ≤ bankRound x := by
  unfold bankRound
  dsimp only
  have hf : (0:ℤ) ≤ ⌊x⌋ := Int.floor_nonneg.mpr hx
  split_ifs <;> omega

theorem pyRound3_nonneg (x : ℝ) (hx : 0 ≤ x) : 0 ≤ pyRound3 x := by
  unfold pyRound3
  have h := bankRound_nonneg (x * 1000) (by nlinarith)
  have hc : (0:ℝ) ≤ (bankRound (x * 1000) : ℝ) := by exact_mod_cast h
  positivity

theorem pyRound3_zero : pyRound3 0 = 0 := by
  unfold pyRound3 bankRound
  norm_num

theorem haversine_ok (lat1 lon1 lat2 lon2 : ℝ) :
    ∃ d, _haversine_km lat1 lon1 lat2 lon2 = .ok d ∧ 0 ≤ d := by
  obtain ⟨ha0, ha1⟩ := havA_mem_unit lat1 lon1 lat2 lon2
  have hs1 : pySqrt (havA lat1 lon1 lat2 lon2) =
      .ok (Real.sqrt (havA lat1 lon1 lat2 lon2)) := by
    unfold pySqrt; rw [if_neg (not_lt.mpr ha0)]
  have hs2 : pySqrt (1 - havA lat1 lon1 lat2 lon2) =
      .ok (Real.sqrt (1 - havA lat1 lon1 lat2 lon2)) := by
    unfold pySqrt; rw [if_neg (not_lt.mpr (sub_nonneg.mpr ha1))]
  refine ⟨pyRound3 (6371.0 * (2 * atan2 (Real.sqrt (havA lat1 lon1 lat2 lon2))
    (Real.sqrt (1 - havA lat1 lon1 lat2 lon2)))), ?_, ?_⟩
  · unfold _haversine_km
    simp only [hs1, hs2]
  · apply pyRound3_nonneg
    have hc : 0 ≤ atan2 (Real.sqrt (havA lat1 lon1 lat2 lon2))
        (Real.sqrt (1 - havA lat1 lon1 lat2 lon2)) :=
      atan2_nonneg _ (Real.sqrt_nonneg _)
    nlinarith

/-- Claim C4: `_add_distance` returns `None` whenever any of the four
coordinates fails the numeric guard — it never raises — and on numeric
coordinates it returns a non-negative distance (the sqrt arguments are
provably in range, so the modelled `math.sqrt` domain error cannot fire). -/
theorem C4_theorem : ∀ (clat clon lat lon : JValue),
    (coordsNumeric clat clon lat lon = false →
      _add_distance clat clon lat lon = .ok none) ∧
    (coordsNumeric clat clon lat lon = true →
      ∃ d, _add_distance clat clon lat lon = .ok (some d) ∧ 0 ≤ d) := by
  intro clat clon lat lon
  constructor
  · intro h
    unfold coordsNumeric at h
    unfold _add_distance
    rw [if_neg (by simp [h])]
  · intro h
    unfold coordsNumeric at h
    unfold _add_distance
    rw [if_pos h]
    obtain ⟨d, hd, hd0⟩ := haversine_ok ((numVal clat : ℚ) : ℝ)
      ((numVal clon : ℚ) : ℝ) ((numVal lat : ℚ) : ℝ) ((numVal lon : ℚ) : ℝ)
    exact ⟨d, by simp only [hd], hd0⟩

/-- Witness for C4: a null coordinate yields `None`; numeric coordinates
yield a non-negative distance. -/
theorem C4_witness :
    _add_distance jnull jnull (jnum 1) (jnum 2) = .ok none ∧
    (∃ d, _add_distance (jnum 28) (jnum 77) (jnum 29) (jnum 78) =
      .ok (some d) ∧ 0 ≤ d) :=
  ⟨(C4_theorem jnull jnull (jnum 1) (jnum 2)).1 rfl,
   (C4_theorem (jnum 28) (jnum 77) (jnum 29) (jnum 78)).2 rfl⟩

/-- Claim C5: over the exact reals, `_haversine_km` (radius 6371 km,
3-decimal rounding) is symmetric in its two coordinate pairs and returns
exactly 0 for identical pairs, for all coordinates in the valid ranges. -/
theorem C5_theorem : ∀ (lat1 lon1 lat2 lon2 : ℝ),
    -90 ≤ lat1 → lat1 ≤ 90 → -180 ≤ lon1 → lon1 ≤ 180 →
    -90 ≤ lat2 → lat2 ≤ 90 → -180 ≤ lon2 → lon2 ≤ 180 →
    _haversine_km lat1 lon1 lat2 lon2 = _haversine_km lat2 lon2 lat1 lon1 ∧
    _haversine_km lat1 lon1 lat1 lon1 = .ok 0 := by
  intro lat1 lon1 lat2 lon2 _ _ _ _ _ _ _ _
  constructor
  · have hsym : havA lat1 lon1 lat2 lon2 = havA lat2 lon2 lat1 lon1 := by
      unfold havA
      have h1 : ∀ p q : ℝ, Real.sin (radians (p - q) / 2) ^ 2 =
          Real.sin (radians (q - p) / 2) ^ 2 := by
        intro p q
        rw [show radians (p - q) / 2 = -(radians (q - p) / 2) by
          unfold radians; ring, Real.sin_neg]
        ring
      rw [h1 lat2 lat1, h1 lon2 lon1]
      ring
    unfold _haversine_km
    rw [hsym]
  · have hzero : havA lat1 lon1 lat1 lon1 = 0 := by
      unfold havA
      simp [radians]
    have h1 : pySqrt 0 = .ok 0 := by
      unfold pySqrt
      rw [if_neg (lt_irrefl 0)]
      rw [Real.sqrt_zero]
    have h2 : pySqrt (1 - 0) = .ok 1 := by
      unfold pySqrt
      rw [if_neg (by norm_num)]
      norm_num
    have hat : atan2 0 1 = 0 := by
      unfold atan2
      rw [if_pos (by norm_num : (0:ℝ) < 1)]
      norm_num [Real.arctan_zero]
    unfold _haversine_km
    rw [hzero]
    simp only [h1, h2]
    rw [hat]
    norm_num [pyRound3_zero]

/-- Witness for C5: symmetry and self-distance at concrete in-range
coordinates. -/
theorem C5_witness :
    _haversine_km 10 20 30 40 = _haversine_km 30 40 10 20 ∧
    _haversine_km 10 20 10 20 = .ok 0 :=
  C5_theorem 10 20 30 40 (by norm_num) (by norm_num) (by norm_num)
    (by norm_num) (by norm_num) (by norm_num) (by norm_num) (by norm_num)

end Pathly
